import Mathlib

/-!
Verification of the IPFS Solana Manager frontend (src/src/app.js) and of the
authentication core described by the repository specification.

The frontend is embedded as pure state-transition functions: each JS handler
becomes a Lean function from the frontend state (and the outcome of its
network request, supplied as a parameter) to the new state together with the
list of HTTP requests it issued.  `localStorage` entries and DOM input fields
are fields of the state record.  JS truthiness of a nullable string is the
`truthy` predicate (null/undefined or empty string are falsy).

The backend authentication core (rate limiter, session manager, bootstrap,
auth gateway) is not part of the repository source; it is modelled from the
specification, as flagged on each of its definitions.  Times are natural
numbers counting seconds.
-/

namespace IpfsSolana

/-- Which screen the UI currently shows: the login screen or the main app. -/
inductive Screen where
  | login
  | mainApp
deriving DecidableEq, Repr

/-- An HTTP request issued by the frontend (method, path, headers). -/
structure Request where
  method : String
  path : String
  headers : List (String × String)
deriving DecidableEq, Repr

/-- JS truthiness of a nullable string: null/undefined and the empty string
are falsy, every other string is truthy. -/
def truthy : Option String → Bool
  | none => false
  | some s => s ≠ ""

/-- JS `String.prototype.trim`: strip whitespace from both ends, embedded
over the character list so it evaluates inside the kernel. -/
def jsTrim (s : String) : String :=
  String.mk (((s.data.dropWhile Char.isWhitespace).reverse.dropWhile Char.isWhitespace).reverse)

/-- The frontend state: the `state` object of app.js (auth fields), the two
localStorage keys, the visible screen, the login error message, the login
form inputs and whether the first-time credentials modal is displayed. -/
structure FrontendState where
  authToken : Option String
  username : Option String
  lsAuthToken : Option String
  lsUsername : Option String
  screen : Screen
  loginResult : Option String
  usernameInput : String
  passwordInput : String
  modalShown : Bool
  userInfo : String
deriving DecidableEq, Repr

/-- The state at page load: `state.authToken`/`state.username` are null, the
login screen is visible, and localStorage holds whatever was persisted. -/
def initialState (lsTok lsUser : Option String) : FrontendState :=
  { authToken := none
    username := none
    lsAuthToken := lsTok
    lsUsername := lsUser
    screen := Screen.login
    loginResult := none
    usernameInput := ""
    passwordInput := ""
    modalShown := false
    userInfo := "" }

/-- `showMainApp` of app.js: hide the login screen, show the main app, set the
user-info banner from `state.username`. -/
def showMainApp (s : FrontendState) : FrontendState :=
  { s with screen := Screen.mainApp
           userInfo := "Logged in as: " ++ s.username.getD "null" }

/-- `showLoginScreen` of app.js: show the login screen, clear both login form
inputs and reset the login result message. -/
def showLoginScreen (s : FrontendState) : FrontendState :=
  { s with screen := Screen.login
           usernameInput := ""
           passwordInput := ""
           loginResult := none }

/-- `showLoginError` of app.js: put the message into the login result area. -/
def showLoginError (s : FrontendState) (msg : String) : FrontendState :=
  { s with loginResult := some msg }

/-- `checkExistingSession` of app.js: read both localStorage keys; if both are
truthy, copy them into `state` and show the main app.  No HTTP request is
made. -/
def checkExistingSession (s : FrontendState) : FrontendState × List Request :=
  if truthy s.lsAuthToken && truthy s.lsUsername then
    (showMainApp { s with authToken := s.lsAuthToken, username := s.lsUsername }, [])
  else
    (s, [])

/-- The logout request `handleLogout` issues: only sent when `state.authToken`
is truthy, with the bearer token in the Authorization header. -/
def logoutRequests (s : FrontendState) : List Request :=
  if truthy s.authToken then
    [{ method := "POST"
       path := "/auth/logout"
       headers := [("Authorization", "Bearer " ++ s.authToken.getD "")] }]
  else
    []

/-- `handleLogout` of app.js: try to POST /auth/logout (errors are caught and
ignored — `fetchThrows` says whether the request failed), then unconditionally
clear `state.authToken`, `state.username`, both localStorage keys, and show
the login screen. -/
def handleLogout (s : FrontendState) (fetchThrows : Bool) : FrontendState × List Request :=
  let _ := fetchThrows
  (showLoginScreen
    { s with authToken := none
             username := none
             lsAuthToken := none
             lsUsername := none },
   logoutRequests s)

/-- The headers `apiRequest` attaches: Content-Type always, plus the bearer
token when `state.authToken` is truthy. -/
def apiRequestHeaders (s : FrontendState) : List (String × String) :=
  if truthy s.authToken then
    [("Content-Type", "application/json"),
     ("Authorization", "Bearer " ++ s.authToken.getD "")]
  else
    [("Content-Type", "application/json")]

/-- `apiRequest` of app.js: issue the request with the auth headers; if the
response status is 401, run `handleLogout` and throw
"Session expired. Please login again." instead of returning the response;
otherwise return the response status normally.  The result is the new state,
the requests issued (the API request itself, then any logout request), and
either the thrown error message or the returned status. -/
def apiRequest (s : FrontendState) (endpoint : String) (status : Nat)
    (logoutFetchThrows : Bool) : FrontendState × List Request × Except String Nat :=
  let req : Request := { method := "POST", path := endpoint, headers := apiRequestHeaders s }
  if status == 401 then
    let lo := handleLogout s logoutFetchThrows
    (lo.1, req :: lo.2, Except.error "Session expired. Please login again.")
  else
    (s, [req], Except.ok status)

/-- The JSON body of a POST /auth/login response. -/
structure LoginBody where
  success : Bool
  token : String
  username : String
  error : Option String
deriving DecidableEq, Repr

/-- The outcome of a `fetch` call: the network layer threw, or a response body
was received and parsed. -/
inductive FetchOutcome (β : Type) where
  | threw
  | responded (body : β)
deriving DecidableEq, Repr

/-- The login request `handleLogin` issues. -/
def loginRequest : Request :=
  { method := "POST"
    path := "/auth/login"
    headers := [("Content-Type", "application/json")] }

/-- `handleLogin` of app.js: read the trimmed username input and the (raw)
password input; if either is empty, show "Please enter username and password"
and return without any request.  Otherwise POST /auth/login; on a body with
`success` truthy, store token and username in `state` and localStorage and
show the main app; on `success` falsy show the body error (default "Login
failed"); on a thrown fetch show the connection error message. -/
def handleLogin (s : FrontendState) (out : FetchOutcome LoginBody) :
    FrontendState × List Request :=
  let username := jsTrim s.usernameInput
  let password := s.passwordInput
  if username = "" ∨ password = "" then
    (showLoginError s "Please enter username and password", [])
  else
    match out with
    | FetchOutcome.threw =>
        (showLoginError s "Connection error. Please check if the server is running.",
         [loginRequest])
    | FetchOutcome.responded body =>
        if body.success then
          (showMainApp
            { s with authToken := some body.token
                     username := some body.username
                     lsAuthToken := some body.token
                     lsUsername := some body.username },
           [loginRequest])
        else
          (showLoginError s (body.error.getD "Login failed"), [loginRequest])

/-- The JSON body of a GET /auth/first-time-check response. -/
structure FirstTimeBody where
  is_first_time : Bool
  username : Option String
  password : Option String
deriving DecidableEq, Repr

/-- `showFirstTimeCredentials` of app.js: display the credentials modal and
auto-fill the login form with the generated username and password. -/
def showFirstTimeCredentials (s : FrontendState) (u pw : String) : FrontendState :=
  { s with modalShown := true
           usernameInput := u
           passwordInput := pw }

/-- The first-time-check request `checkFirstTimeSetup` issues (no headers,
no auth). -/
def firstTimeRequest : Request :=
  { method := "GET", path := "/auth/first-time-check", headers := [] }

/-- `checkFirstTimeSetup` of app.js: GET /auth/first-time-check; when the body
has `is_first_time` truthy and both `username` and `password` truthy, show the
credentials modal; otherwise (including a thrown fetch, whose error is caught)
do nothing. -/
def checkFirstTimeSetup (s : FrontendState) (out : FetchOutcome FirstTimeBody) :
    FrontendState × List Request :=
  match out with
  | FetchOutcome.threw => (s, [firstTimeRequest])
  | FetchOutcome.responded b =>
      if b.is_first_time && truthy b.username && truthy b.password then
        (showFirstTimeCredentials s (b.username.getD "") (b.password.getD ""),
         [firstTimeRequest])
      else
        (s, [firstTimeRequest])

/-- The JSON body of a POST /auth/reset-application response. -/
structure ResetBody where
  success : Bool
  error : Option String
deriving DecidableEq, Repr

/-- The reset request `resetApplication` issues: a bare POST with no headers,
in particular no Authorization header. -/
def resetRequest : Request :=
  { method := "POST", path := "/auth/reset-application", headers := [] }

/-- `resetApplication` of app.js: two confirm dialogs, then a prompt that must
return exactly "RESET" (prompt cancel gives null); only then POST
/auth/reset-application (no headers).  On a body with `success` truthy the
page is reloaded (the returned Bool); on failure or a thrown fetch only an
alert is shown.  The frontend state is not modified by this handler. -/
def resetApplication (s : FrontendState) (confirmed doubleConfirmed : Bool)
    (finalCheck : Option String) (out : FetchOutcome ResetBody) :
    FrontendState × List Request × Bool :=
  if !confirmed then
    (s, [], false)
  else if !doubleConfirmed then
    (s, [], false)
  else if finalCheck ≠ some "RESET" then
    (s, [], false)
  else
    match out with
    | FetchOutcome.threw => (s, [resetRequest], false)
    | FetchOutcome.responded b =>
        if b.success then (s, [resetRequest], true)
        else (s, [resetRequest], false)

/-- The unit names of `formatBytes` in app.js. -/
def sizes : List String := ["Bytes", "KB", "MB", "GB"]

/-- The unit index of `formatBytes`: `Math.floor(Math.log(bytes)/Math.log(1024))`.
For a positive integer the real-log expression equals the base-1024 integer
logarithm, which is how it is embedded here (the JS float computation of the
same mathematical value is abstracted). -/
def byteUnitIndex (bytes : Nat) : Nat := Nat.log 1024 bytes

/-- The numeric part of `formatBytes` in hundredths:
`(bytes / Math.pow(1024, i)).toFixed(2)` embedded as rounding
`bytes / 1024 ^ i` to the nearest hundredth in integer arithmetic. -/
def mantissaHundredths (bytes : Nat) : Nat :=
  (bytes * 100 + 1024 ^ byteUnitIndex bytes / 2) / 1024 ^ byteUnitIndex bytes

/-- Rendering of the numeric part: `parseFloat` drops trailing fractional
zeros, so 500 hundredths prints as "5", 510 as "5.1", 512 as "5.12". -/
def decimalString (h : Nat) : String :=
  let whole := h / 100
  let frac := h % 100
  if frac = 0 then toString whole
  else if frac % 10 = 0 then toString whole ++ "." ++ toString (frac / 10)
  else toString whole ++ "." ++ (if frac < 10 then "0" else "") ++ toString frac

/-- `formatBytes` of app.js: "0 Bytes" for 0; otherwise the scaled value
followed by `sizes[i]`.  A JS out-of-range index reads `undefined`, which
string concatenation prints as "undefined"; `List.getD` with that default
reproduces it. -/
def formatBytes (bytes : Nat) : String :=
  if bytes = 0 then "0 Bytes"
  else decimalString (mantissaHundredths bytes) ++ " "
       ++ sizes.getD (byteUnitIndex bytes) "undefined"

/-! Backend authentication core, modelled from the specification (the backend
source is not part of this repository's files). -/

/-- Modelled from the spec: the fixed session TTL, 24 hours (in seconds). -/
def fixedTtl : Nat := 86400

/-- Modelled from the spec: the lockout duration, 15 minutes (in seconds). -/
def lockoutDuration : Nat := 900

/-- Modelled from the spec: the failed-login threshold, 5 attempts. -/
def lockoutThreshold : Nat := 5

/-- Modelled from the spec: the single operator record — username, salted
password hash, creation time. -/
structure Identity where
  username : String
  passwordHash : String
  createdAt : Nat
deriving DecidableEq, Repr

/-- Modelled from the spec: a session — opaque token, username, issue and
expiry times, with `expiresAt = issuedAt + fixedTtl`. -/
structure Session where
  token : String
  username : String
  issuedAt : Nat
  expiresAt : Nat
deriving DecidableEq, Repr

/-- Modelled from the spec: the Password Hasher.  The salted one-way hash is
abstracted as an injective tagging of the plaintext; `verifyPassword`
recomputes and compares, which preserves the round-trip contract
(verify succeeds exactly on the hashed plaintext). -/
def hashPassword (plaintext : String) : String := "hashed:" ++ plaintext

/-- Modelled from the spec: `verify(plaintext, digest)` recomputes using the
embedded salt and compares. -/
def verifyPassword (plaintext digest : String) : Bool := digest == hashPassword plaintext

/-- Modelled from the spec: process-wide backend state — the Credential Store
entry, the plaintext pair pending one-time display after bootstrap, the
session table, and the per-identity LoginAttemptCounter. -/
structure BackendState where
  identity : Option Identity
  pendingCredentials : Option (String × String)
  sessions : List Session
  failureCount : Nat
  lockedUntil : Option Nat
deriving DecidableEq, Repr

/-- Modelled from the spec: `is_locked(identity)` — true iff `locked_until`
is set and in the future. -/
def isLocked (b : BackendState) (now : Nat) : Bool :=
  match b.lockedUntil with
  | none => false
  | some l => now < l

/-- Modelled from the spec: `record_failure(identity)` — increment
`failure_count`; if it reaches the threshold (5), set
`locked_until = now + lockout_duration` and reset `failure_count` to 0. -/
def recordFailure (b : BackendState) (now : Nat) : BackendState :=
  if lockoutThreshold ≤ b.failureCount + 1 then
    { b with failureCount := 0, lockedUntil := some (now + lockoutDuration) }
  else
    { b with failureCount := b.failureCount + 1 }

/-- Modelled from the spec: `record_success(identity)` — clear
`failure_count` and `locked_until`. -/
def recordSuccess (b : BackendState) : BackendState :=
  { b with failureCount := 0, lockedUntil := none }

/-- Modelled from the spec: `issue(username)` — record a Session with
`issued_at = now`, `expires_at = now + 24h`; the freshly generated random
token is passed in as `tok`. -/
def issueSession (b : BackendState) (u tok : String) (now : Nat) :
    BackendState × Session :=
  let s : Session := { token := tok, username := u, issuedAt := now, expiresAt := now + fixedTtl }
  ({ b with sessions := s :: b.sessions }, s)

/-- Modelled from the spec: the authentication error taxonomy. -/
inductive AuthError where
  | invalidCredentials
  | lockedOut
  | unauthorized
deriving DecidableEq, Repr

/-- Modelled from the spec: `validate(token)` — look up the Session; fail if
absent or `now >= expires_at`; on success return the associated username. -/
def validateToken (b : BackendState) (tok : String) (now : Nat) :
    Except AuthError String :=
  match b.sessions.find? (fun s => s.token == tok) with
  | none => Except.error AuthError.unauthorized
  | some s => if now < s.expiresAt then Except.ok s.username
              else Except.error AuthError.unauthorized

/-- Modelled from the spec: `revoke(token)` — delete the Session. -/
def revokeToken (b : BackendState) (tok : String) : BackendState :=
  { b with sessions := b.sessions.filter (fun s => s.token != tok) }

/-- Modelled from the spec: `logout(token)` — revoke the session; idempotent,
revoking an already-invalid token is a no-op success (the Bool result). -/
def gatewayLogout (b : BackendState) (tok : String) : BackendState × Bool :=
  (revokeToken b tok, true)

/-- Modelled from the spec: `login(username, password)` — fail with
`LockedOut` if the Rate Limiter reports locked (checked before verification);
fail with `InvalidCredentials`, recording the failure, if verification fails;
on success record success and return a new Session. -/
def gatewayLogin (b : BackendState) (u pw tok : String) (now : Nat) :
    BackendState × Except AuthError Session :=
  if isLocked b now then
    (b, Except.error AuthError.lockedOut)
  else
    match b.identity with
    | none => (recordFailure b now, Except.error AuthError.invalidCredentials)
    | some ident =>
        if u == ident.username && verifyPassword pw ident.passwordHash then
          let r := issueSession (recordSuccess b) u tok now
          (r.1, Except.ok r.2)
        else
          (recordFailure b now, Except.error AuthError.invalidCredentials)

/-- Modelled from the spec: the Bootstrap Generator outcome — persist the hash
of the generated password, hold the plaintext pair for exactly one surfacing,
start with empty session table and a clear attempt counter. -/
def provisionIdentity (u pw : String) (now : Nat) : BackendState :=
  { identity := some { username := u, passwordHash := hashPassword pw, createdAt := now }
    pendingCredentials := some (u, pw)
    sessions := []
    failureCount := 0
    lockedUntil := none }

/-- Modelled from the spec: GET /auth/first-time-check — the plaintext pair is
returned only while pending (only ever once, immediately after bootstrap), and
surfacing it clears the pending pair. -/
def firstTimeCheck (b : BackendState) : BackendState × FirstTimeBody :=
  match b.pendingCredentials with
  | some (u, p) =>
      ({ b with pendingCredentials := none },
       { is_first_time := true, username := some u, password := some p })
  | none =>
      (b, { is_first_time := false, username := none, password := none })

/-- Modelled from the spec: `reset()` — destroy the existing Identity and all
Sessions and re-run the Bootstrap Generator with fresh credentials. -/
def resetBackend (b : BackendState) (newU newPw : String) (now : Nat) : BackendState :=
  let _ := b
  provisionIdentity newU newPw now

/-! Concrete states used by the witness theorems. -/

/-- A concrete logged-in frontend state. -/
def sampleLoggedIn : FrontendState :=
  { authToken := some "tok123"
    username := some "alice"
    lsAuthToken := some "tok123"
    lsUsername := some "alice"
    screen := Screen.mainApp
    loginResult := none
    usernameInput := ""
    passwordInput := ""
    modalShown := false
    userInfo := "Logged in as: alice" }

/-- A concrete frontend state with the login form filled in. -/
def sampleLoginState : FrontendState :=
  { initialState none none with usernameInput := "alice", passwordInput := "pw1" }

/-- A concrete successful login response body. -/
def sampleLoginBody : LoginBody :=
  { success := true, token := "tok9", username := "alice", error := none }

/-! Claim theorems. -/

/-- Claim C1: for every response to an apiRequest call whose HTTP status is
401, the frontend discards its stored token (state.authToken and both
localStorage keys cleared), returns to the login state, and apiRequest does
not return the response normally — it throws. -/
theorem apiRequest_401_discards_token (s : FrontendState) (endpoint : String)
    (status : Nat) (lft : Bool) (h : status = 401) :
    (apiRequest s endpoint status lft).1.authToken = none ∧
    (apiRequest s endpoint status lft).1.username = none ∧
    (apiRequest s endpoint status lft).1.lsAuthToken = none ∧
    (apiRequest s endpoint status lft).1.lsUsername = none ∧
    (apiRequest s endpoint status lft).1.screen = Screen.login ∧
    (apiRequest s endpoint status lft).2.2 =
      Except.error "Session expired. Please login again." := by
  subst h
  simp [apiRequest, handleLogout, showLoginScreen]

theorem apiRequest_401_discards_token_witness :
    (apiRequest sampleLoggedIn "/ipfs/upload" 401 false).1.authToken = none ∧
    (apiRequest sampleLoggedIn "/ipfs/upload" 401 false).1.username = none ∧
    (apiRequest sampleLoggedIn "/ipfs/upload" 401 false).1.lsAuthToken = none ∧
    (apiRequest sampleLoggedIn "/ipfs/upload" 401 false).1.lsUsername = none ∧
    (apiRequest sampleLoggedIn "/ipfs/upload" 401 false).1.screen = Screen.login ∧
    (apiRequest sampleLoggedIn "/ipfs/upload" 401 false).2.2 =
      Except.error "Session expired. Please login again." :=
  apiRequest_401_discards_token sampleLoggedIn "/ipfs/upload" 401 false rfl

/-- Claim C2: handleLogout completes as a no-op success for every starting
state and regardless of whether the logout request throws — state.authToken
and state.username end null, both localStorage keys are removed and the login
screen is shown; and (modelled from the spec) the backend logout is an
idempotent success after which authenticating with the logged-out token
yields Unauthorized at every time. -/
theorem handleLogout_always_clears (s : FrontendState) (fetchThrows : Bool)
    (b : BackendState) (tok : String) (t : Nat) :
    (handleLogout s fetchThrows).1.authToken = none ∧
    (handleLogout s fetchThrows).1.username = none ∧
    (handleLogout s fetchThrows).1.lsAuthToken = none ∧
    (handleLogout s fetchThrows).1.lsUsername = none ∧
    (handleLogout s fetchThrows).1.screen = Screen.login ∧
    (gatewayLogout b tok).2 = true ∧
    validateToken (gatewayLogout b tok).1 tok t =
      Except.error AuthError.unauthorized := by
  refine ⟨rfl, rfl, rfl, rfl, rfl, rfl, ?_⟩
  have hfind : ((gatewayLogout b tok).1).sessions.find? (fun s => s.token == tok) = none := by
    rw [List.find?_eq_none]
    intro x hx
    have hmem := List.mem_filter.mp hx
    simpa using hmem.2
  simp [validateToken, hfind]

/-- Claim C3: handleLogin stores the session (state fields, both localStorage
keys, main app shown) iff the login response body has success true; when
success is false only the login error message is displayed and the stored
session state is unchanged. -/
theorem handleLogin_stores_iff_success (s : FrontendState) (body : LoginBody)
    (hU : jsTrim s.usernameInput ≠ "") (hP : s.passwordInput ≠ "") :
    (body.success = true →
      (handleLogin s (FetchOutcome.responded body)).1.authToken = some body.token ∧
      (handleLogin s (FetchOutcome.responded body)).1.username = some body.username ∧
      (handleLogin s (FetchOutcome.responded body)).1.lsAuthToken = some body.token ∧
      (handleLogin s (FetchOutcome.responded body)).1.lsUsername = some body.username ∧
      (handleLogin s (FetchOutcome.responded body)).1.screen = Screen.mainApp) ∧
    (body.success = false →
      (handleLogin s (FetchOutcome.responded body)).1.loginResult =
        some (body.error.getD "Login failed") ∧
      (handleLogin s (FetchOutcome.responded body)).1.authToken = s.authToken ∧
      (handleLogin s (FetchOutcome.responded body)).1.username = s.username ∧
      (handleLogin s (FetchOutcome.responded body)).1.lsAuthToken = s.lsAuthToken ∧
      (handleLogin s (FetchOutcome.responded body)).1.lsUsername = s.lsUsername ∧
      (handleLogin s (FetchOutcome.responded body)).1.screen = s.screen) := by
  constructor
  · intro hs
    simp [handleLogin, hU, hP, hs, showMainApp]
  · intro hs
    simp [handleLogin, hU, hP, hs, showLoginError]

theorem handleLogin_stores_iff_success_witness :
    (handleLogin sampleLoginState (FetchOutcome.responded sampleLoginBody)).1.authToken =
      some "tok9" ∧
    (handleLogin sampleLoginState (FetchOutcome.responded sampleLoginBody)).1.screen =
      Screen.mainApp := by
  have h := handleLogin_stores_iff_success sampleLoginState sampleLoginBody
    (by decide) (by decide)
  exact ⟨(h.1 rfl).1, (h.1 rfl).2.2.2.2⟩

/-- Claim C8: when the trimmed username or the password is empty, handleLogin
shows "Please enter username and password" and returns without sending any
HTTP request, leaving the auth state and localStorage unchanged. -/
theorem handleLogin_empty_fields (s : FrontendState) (out : FetchOutcome LoginBody)
    (h : jsTrim s.usernameInput = "" ∨ s.passwordInput = "") :
    (handleLogin s out).2 = [] ∧
    (handleLogin s out).1.loginResult = some "Please enter username and password" ∧
    (handleLogin s out).1.authToken = s.authToken ∧
    (handleLogin s out).1.username = s.username ∧
    (handleLogin s out).1.lsAuthToken = s.lsAuthToken ∧
    (handleLogin s out).1.lsUsername = s.lsUsername ∧
    (handleLogin s out).1.screen = s.screen := by
  rcases h with h | h <;> simp [handleLogin, h, showLoginError]

theorem handleLogin_empty_fields_witness :
    (handleLogin (initialState none none) FetchOutcome.threw).2 = [] ∧
    (handleLogin (initialState none none) FetchOutcome.threw).1.loginResult =
      some "Please enter username and password" := by
  have h := handleLogin_empty_fields (initialState none none) FetchOutcome.threw
    (Or.inl (by decide))
  exact ⟨h.1, h.2.1⟩

/-- Claim C10: on startup checkExistingSession restores the session and shows
the main app iff both localStorage keys are present and non-empty, and it
issues no HTTP request — so a locally stored but server-invalid token still
opens the main app. -/
theorem checkExistingSession_restores_iff (lsTok lsUser : Option String) :
    (checkExistingSession (initialState lsTok lsUser)).2 = [] ∧
    ((truthy lsTok && truthy lsUser) = true →
      (checkExistingSession (initialState lsTok lsUser)).1.authToken = lsTok ∧
      (checkExistingSession (initialState lsTok lsUser)).1.username = lsUser ∧
      (checkExistingSession (initialState lsTok lsUser)).1.screen = Screen.mainApp) ∧
    ((truthy lsTok && truthy lsUser) = false →
      (checkExistingSession (initialState lsTok lsUser)).1 = initialState lsTok lsUser ∧
      (checkExistingSession (initialState lsTok lsUser)).1.screen = Screen.login) := by
  refine ⟨?_, ?_, ?_⟩
  · simp only [checkExistingSession]
    split <;> rfl
  · intro h
    simp [checkExistingSession, h, showMainApp, initialState]
  · intro h
    simp [checkExistingSession, h, initialState]

theorem checkExistingSession_restores_iff_witness :
    (checkExistingSession (initialState (some "tok123") (some "alice"))).1.screen =
      Screen.mainApp ∧
    (checkExistingSession (initialState none none)).1.screen = Screen.login := by
  exact ⟨((checkExistingSession_restores_iff (some "tok123") (some "alice")).2.1
            (by decide)).2.2,
         ((checkExistingSession_restores_iff none none).2.2 (by decide)).2⟩

/-- Claim C4: the plaintext credentials modal is displayed (and the login form
pre-filled) iff the first-time-check response has is_first_time true with
username and password present; and (modelled from the spec) the plaintext
pair is surfaced exactly once immediately after bootstrap — the next
first-time-check response is no longer first-time, so the modal is never
shown for it. -/
theorem firstTime_modal_iff (s : FrontendState) (b : FirstTimeBody)
    (u pw : String) (t : Nat) :
    ((b.is_first_time && truthy b.username && truthy b.password) = true →
      (checkFirstTimeSetup s (FetchOutcome.responded b)).1.modalShown = true ∧
      (checkFirstTimeSetup s (FetchOutcome.responded b)).1.usernameInput = b.username.getD "" ∧
      (checkFirstTimeSetup s (FetchOutcome.responded b)).1.passwordInput = b.password.getD "") ∧
    ((b.is_first_time && truthy b.username && truthy b.password) = false →
      (checkFirstTimeSetup s (FetchOutcome.responded b)).1 = s) ∧
    (firstTimeCheck (provisionIdentity u pw t)).2 =
      { is_first_time := true, username := some u, password := some pw } ∧
    (firstTimeCheck (firstTimeCheck (provisionIdentity u pw t)).1).2 =
      { is_first_time := false, username := none, password := none } := by
  refine ⟨?_, ?_, rfl, rfl⟩ <;>
    intro h <;> simp [checkFirstTimeSetup, h, showFirstTimeCredentials]

theorem firstTime_modal_iff_witness :
    (checkFirstTimeSetup (initialState none none)
      (FetchOutcome.responded
        { is_first_time := true, username := some "bravewolf421", password := some "pw12" })).1.modalShown
      = true ∧
    (checkFirstTimeSetup (initialState none none)
      (FetchOutcome.responded
        { is_first_time := false, username := none, password := none })).1
      = initialState none none := by
  exact ⟨((firstTime_modal_iff (initialState none none)
            { is_first_time := true, username := some "bravewolf421", password := some "pw12" }
            "u" "p" 0).1 (by decide)).1,
         (firstTime_modal_iff (initialState none none)
            { is_first_time := false, username := none, password := none }
            "u" "p" 0).2.1 (by decide)⟩

/-- Claim C5: resetApplication reaches the network only when both
confirmation dialogs pass and the prompt returns exactly "RESET"; the only
request it then sends is a bare POST to /auth/reset-application with no
headers, hence no Authorization header; the page reload happens iff the
request was sent and its body has success true; and (modelled from the spec)
a first-time-check after the backend reset yields the new credentials. -/
theorem resetApplication_guarded (s : FrontendState) (c1 c2 : Bool)
    (fc : Option String) (out : FetchOutcome ResetBody) (b : BackendState)
    (nu npw : String) (t : Nat) :
    ((resetApplication s c1 c2 fc out).2.1 ≠ [] ↔
      c1 = true ∧ c2 = true ∧ fc = some "RESET") ∧
    (∀ r ∈ (resetApplication s c1 c2 fc out).2.1,
      r = resetRequest ∧ r.headers = []) ∧
    ((resetApplication s c1 c2 fc out).2.2 = true ↔
      c1 = true ∧ c2 = true ∧ fc = some "RESET" ∧
        ∃ body, out = FetchOutcome.responded body ∧ body.success = true) ∧
    (firstTimeCheck (resetBackend b nu npw t)).2 =
      { is_first_time := true, username := some nu, password := some npw } := by
  refine ⟨?_, ?_, ?_, rfl⟩
  · cases c1 <;> cases c2 <;> by_cases hfc : fc = some "RESET" <;>
      rcases out with _ | body <;> try cases hb : body.success
    all_goals simp_all [resetApplication, resetRequest]
  · cases c1 <;> cases c2 <;> by_cases hfc : fc = some "RESET" <;>
      rcases out with _ | body <;> try cases hb : body.success
    all_goals simp_all [resetApplication, resetRequest]
  · cases c1 <;> cases c2 <;> by_cases hfc : fc = some "RESET" <;>
      rcases out with _ | body <;> try cases hb : body.success
    all_goals simp_all [resetApplication, resetRequest]

theorem resetApplication_guarded_witness :
    (resetApplication (initialState none none) true true (some "RESET")
      (FetchOutcome.responded { success := true, error := none })).2.2 = true ∧
    (resetApplication (initialState none none) true true (some "reset")
      (FetchOutcome.responded { success := true, error := none })).2.1 = [] := by
  constructor
  · exact (resetApplication_guarded (initialState none none) true true (some "RESET")
      (FetchOutcome.responded { success := true, error := none })
      (provisionIdentity "a" "b" 0) "n" "p" 0).2.2.1.mpr
      ⟨rfl, rfl, rfl, ⟨{ success := true, error := none }, rfl, rfl⟩⟩
  · have h := (resetApplication_guarded (initialState none none) true true (some "reset")
      (FetchOutcome.responded { success := true, error := none })
      (provisionIdentity "a" "b" 0) "n" "p" 0).1
    by_contra hne
    exact absurd ((h.mp hne).2.2) (by decide)

/-- The backend state after five consecutive failed login attempts against a
freshly provisioned identity (attempt i uses the wrong password at time ti). -/
def afterFiveFailedLogins (u pw wrong tok1 tok2 tok3 tok4 tok5 : String)
    (t0 t1 t2 t3 t4 t5 : Nat) : BackendState :=
  (gatewayLogin
    ((gatewayLogin
      ((gatewayLogin
        ((gatewayLogin
          ((gatewayLogin (provisionIdentity u pw t0) u wrong tok1 t1).1)
          u wrong tok2 t2).1)
        u wrong tok3 t3).1)
      u wrong tok4 t4).1)
    u wrong tok5 t5).1

/-- Computation of the state after five failed attempts: the fifth failure
trips the threshold, clearing the counter and locking until t5 plus the
lockout duration. -/
theorem afterFiveFailedLogins_eq (u pw wrong tok1 tok2 tok3 tok4 tok5 : String)
    (t0 t1 t2 t3 t4 t5 : Nat)
    (hw : verifyPassword wrong (hashPassword pw) = false) :
    afterFiveFailedLogins u pw wrong tok1 tok2 tok3 tok4 tok5 t0 t1 t2 t3 t4 t5 =
      { identity := some { username := u, passwordHash := hashPassword pw, createdAt := t0 }
        pendingCredentials := some (u, pw)
        sessions := []
        failureCount := 0
        lockedUntil := some (t5 + lockoutDuration) } := by
  simp [afterFiveFailedLogins, gatewayLogin, provisionIdentity, isLocked,
        recordFailure, lockoutThreshold, hw]

/-- Claim C6 (modelled from the spec): after 5 consecutive failed logins the
identity is locked until the 5th failure time plus lockout_duration; every
attempt strictly before that instant fails with LockedOut even with correct
credentials and leaves the state unchanged; once the duration has elapsed, a
login with correct credentials succeeds and resets failure_count to 0. -/
theorem lockout_after_five_failures (u pw wrong tok1 tok2 tok3 tok4 tok5 : String)
    (t0 t1 t2 t3 t4 t5 : Nat)
    (hw : verifyPassword wrong (hashPassword pw) = false) :
    (afterFiveFailedLogins u pw wrong tok1 tok2 tok3 tok4 tok5 t0 t1 t2 t3 t4 t5).lockedUntil
      = some (t5 + lockoutDuration) ∧
    (∀ t tok, t < t5 + lockoutDuration →
      (gatewayLogin (afterFiveFailedLogins u pw wrong tok1 tok2 tok3 tok4 tok5
          t0 t1 t2 t3 t4 t5) u pw tok t).2 = Except.error AuthError.lockedOut ∧
      (gatewayLogin (afterFiveFailedLogins u pw wrong tok1 tok2 tok3 tok4 tok5
          t0 t1 t2 t3 t4 t5) u pw tok t).1 =
        afterFiveFailedLogins u pw wrong tok1 tok2 tok3 tok4 tok5 t0 t1 t2 t3 t4 t5) ∧
    (∀ t tok, t5 + lockoutDuration ≤ t →
      (gatewayLogin (afterFiveFailedLogins u pw wrong tok1 tok2 tok3 tok4 tok5
          t0 t1 t2 t3 t4 t5) u pw tok t).2 =
        Except.ok { token := tok, username := u, issuedAt := t, expiresAt := t + fixedTtl } ∧
      (gatewayLogin (afterFiveFailedLogins u pw wrong tok1 tok2 tok3 tok4 tok5
          t0 t1 t2 t3 t4 t5) u pw tok t).1.failureCount = 0) := by
  rw [afterFiveFailedLogins_eq u pw wrong tok1 tok2 tok3 tok4 tok5 t0 t1 t2 t3 t4 t5 hw]
  refine ⟨rfl, ?_, ?_⟩
  · intro t tok ht
    constructor <;> simp [gatewayLogin, isLocked, ht]
  · intro t tok ht
    have hnl : ¬ t < t5 + lockoutDuration := Nat.not_lt.mpr ht
    constructor <;>
      simp [gatewayLogin, isLocked, hnl, verifyPassword, recordSuccess, issueSession]

theorem lockout_after_five_failures_witness :
    verifyPassword "bad" (hashPassword "pw") = false ∧
    (gatewayLogin (afterFiveFailedLogins "alice" "pw" "bad" "k1" "k2" "k3" "k4" "k5"
        0 1 2 3 4 5) "alice" "pw" "k6" 10).2 = Except.error AuthError.lockedOut ∧
    (gatewayLogin (afterFiveFailedLogins "alice" "pw" "bad" "k1" "k2" "k3" "k4" "k5"
        0 1 2 3 4 5) "alice" "pw" "k7" 905).2 =
      Except.ok { token := "k7", username := "alice", issuedAt := 905, expiresAt := 905 + fixedTtl } := by
  refine ⟨by decide, ?_, ?_⟩
  · exact ((lockout_after_five_failures "alice" "pw" "bad" "k1" "k2" "k3" "k4" "k5"
      0 1 2 3 4 5 (by decide)).2.1 10 "k6" (by norm_num [lockoutDuration])).1
  · exact ((lockout_after_five_failures "alice" "pw" "bad" "k1" "k2" "k3" "k4" "k5"
      0 1 2 3 4 5 (by decide)).2.2 905 "k7" (by norm_num [lockoutDuration])).1

/-- Claim C7 (modelled from the spec): a session issued at T0 has
expires_at = T0 + 24h; while it has not been revoked, validation succeeds at
every time strictly before expires_at and fails with Unauthorized at every
time at or after expires_at. -/
theorem session_ttl_boundary (b : BackendState) (u tok : String) (t0 : Nat) :
    (issueSession b u tok t0).2.expiresAt = t0 + fixedTtl ∧
    (∀ t, t < t0 + fixedTtl →
      validateToken (issueSession b u tok t0).1 tok t = Except.ok u) ∧
    (∀ t, t0 + fixedTtl ≤ t →
      validateToken (issueSession b u tok t0).1 tok t =
        Except.error AuthError.unauthorized) := by
  have hfind : ((issueSession b u tok t0).1).sessions.find? (fun s => s.token == tok) =
      some { token := tok, username := u, issuedAt := t0, expiresAt := t0 + fixedTtl } := by
    simp only [issueSession]
    exact List.find?_cons_of_pos _ (by simp)
  refine ⟨rfl, ?_, ?_⟩
  · intro t ht
    simp [validateToken, hfind, ht]
  · intro t ht
    simp [validateToken, hfind, Nat.not_lt.mpr ht]

theorem session_ttl_boundary_witness :
    (issueSession (provisionIdentity "alice" "pw" 0) "alice" "tk" 0).2.expiresAt = 86400 ∧
    validateToken (issueSession (provisionIdentity "alice" "pw" 0) "alice" "tk" 0).1 "tk" 1 =
      Except.ok "alice" ∧
    validateToken (issueSession (provisionIdentity "alice" "pw" 0) "alice" "tk" 0).1 "tk" 86401 =
      Except.error AuthError.unauthorized := by
  refine ⟨(session_ttl_boundary (provisionIdentity "alice" "pw" 0) "alice" "tk" 0).1, ?_, ?_⟩
  · exact (session_ttl_boundary (provisionIdentity "alice" "pw" 0) "alice" "tk" 0).2.1 1
      (by norm_num [fixedTtl])
  · exact (session_ttl_boundary (provisionIdentity "alice" "pw" 0) "alice" "tk" 0).2.2 86401
      (by norm_num [fixedTtl])

/-- The unit read at any index at most 3 is one of the four unit names. -/
theorem sizes_getD_mem : ∀ i : Nat, i ≤ 3 → sizes.getD i "undefined" ∈ sizes
  | 0, _ => by decide
  | 1, _ => by decide
  | 2, _ => by decide
  | 3, _ => by decide
  | n + 4, h => by omega

/-- Claim C9: formatBytes 0 is "0 Bytes"; for every bytes with
1 ≤ bytes < 1024^4 the unit index floor(log bytes / log 1024) is at most 3,
so the result is the scaled number followed by one of the four units of the
sizes array; for bytes ≥ 1024^4 the index exceeds the array's last
position. -/
theorem formatBytes_unit_bounds (bytes : Nat) :
    formatBytes 0 = "0 Bytes" ∧
    (1 ≤ bytes → bytes < 1024 ^ 4 →
      byteUnitIndex bytes ≤ 3 ∧
      sizes.getD (byteUnitIndex bytes) "undefined" ∈ sizes ∧
      formatBytes bytes = decimalString (mantissaHundredths bytes) ++ " "
        ++ sizes.getD (byteUnitIndex bytes) "undefined") ∧
    (1024 ^ 4 ≤ bytes → 3 < byteUnitIndex bytes) := by
  refine ⟨rfl, ?_, ?_⟩
  · intro h1 h2
    have hne : bytes ≠ 0 := by omega
    have hlt : Nat.log 1024 bytes < 4 := Nat.log_lt_of_lt_pow hne h2
    have hle : byteUnitIndex bytes ≤ 3 := by
      unfold byteUnitIndex
      omega
    refine ⟨hle, sizes_getD_mem _ hle, ?_⟩
    simp [formatBytes, hne]
  · intro h
    have hne : bytes ≠ 0 := by
      have h1 : (1 : Nat) ≤ 1024 ^ 4 := by norm_num
      omega
    have h4 : 4 ≤ Nat.log 1024 bytes := (Nat.pow_le_iff_le_log (by norm_num) hne).mp h
    unfold byteUnitIndex
    omega

theorem formatBytes_unit_bounds_witness :
    formatBytes 0 = "0 Bytes" ∧ byteUnitIndex 500 ≤ 3 ∧ 3 < byteUnitIndex (1024 ^ 4) := by
  refine ⟨(formatBytes_unit_bounds 0).1, ?_, ?_⟩
  · exact ((formatBytes_unit_bounds 500).2.1 (by norm_num) (by norm_num)).1
  · exact (formatBytes_unit_bounds (1024 ^ 4)).2.2 (le_refl (1024 ^ 4))

end IpfsSolana
